import Mathlib

/-!
Verification of the authentication and session-trust subsystem of the
contacts-management backend (`goit-pythonweb-hw-012`).

This file is a shallow embedding of the Python source:
  * `src/services/auth.py` — password hashing (`Hash`), the JWT codec
    (`create_access_token`, `create_email_token`, `get_email_from_token`,
    `create_reset_token`, `verify_reset_token`) and the session resolver
    (`get_current_user`);
  * `src/api/auth.py` — the endpoints `login_user`, `confirmed_email`,
    `request_email`, `reset_password`;
  * `src/repository/users.py` — the user store operations.

Python exceptions are modelled with `Except`; JWTs are modelled
symbolically (a signed token records its payload, secret and algorithm;
signature verification is the check that secret and algorithm agree);
time is an integer count of seconds.  JSON round-tripping through the
Redis cache (`json.dumps`/`json.loads`) is modelled as the identity on
structured snapshot values.
-/

namespace Hw12

/-- The relevant fields of `src/conf/config.py`'s `settings` object
(the file itself only reads environment variables). -/
structure Settings where
  JWT_SECRET : String
  JWT_ALGORITHM : String
  JWT_EXPIRATION_SECONDS : Int
deriving DecidableEq, Repr

/-- A password hash as stored in `User.hashed_password`.
`bcrypt pw` stands for a well-formed bcrypt hash of the password `pw`
(hashing is modelled as injective and collision-free, the ideal-hash
abstraction); `malformed s` stands for a string that no scheme of the
passlib `CryptContext(schemes=["bcrypt"])` can identify as a hash. -/
inductive StoredHash where
  | bcrypt (pw : String)
  | malformed (s : String)
deriving DecidableEq, Repr

/-- Python exceptions that escape the modelled code paths. -/
inductive PyExc where
  /-- `fastapi.HTTPException(status_code, detail)`. -/
  | httpException (statusCode : Nat) (detail : String)
  /-- `KeyError`, e.g. from `payload["sub"]` on a payload without that key. -/
  | keyError (key : String)
  /-- `AttributeError`, e.g. from `None.confirmed`. -/
  | attributeError (msg : String)
  /-- passlib's `UnknownHashError` (a `ValueError`): the stored hash could
  not be identified by any configured scheme. -/
  | unknownHashError
deriving DecidableEq, Repr

/-- Errors raised by `jose.jwt.decode`; both constructors are subclasses of
`jose.JWTError` and are therefore caught by `except JWTError`. -/
inductive JoseError where
  | jwtError
  | expiredSignature
deriving DecidableEq, Repr

/-- `passlib.context.CryptContext(schemes=["bcrypt"]).verify(secret, hash)`:
returns whether `secret` matches the hash when the hash is identifiable as
bcrypt, and raises `UnknownHashError` when it is not. -/
def cryptContextVerify (plain : String) (h : StoredHash) : Except PyExc Bool :=
  match h with
  | .bcrypt pw => .ok (plain == pw)
  | .malformed _ => .error .unknownHashError

namespace Hash

/-- `Hash.verify_password` (src/services/auth.py:23): delegates to
`self.pwd_context.verify(plain_password, hashed_password)`. -/
def verify_password (plain_password : String) (hashed_password : StoredHash) :
    Except PyExc Bool :=
  cryptContextVerify plain_password hashed_password

/-- `Hash.get_password_hash` (src/services/auth.py:36): delegates to
`self.pwd_context.hash(password)`, which always produces a well-formed
bcrypt hash. -/
def get_password_hash (password : String) : StoredHash :=
  .bcrypt password

end Hash

/-- A JWT claim set.  Each field distinguishes "key absent" (`none`) from
"key present".  `sub` further distinguishes a JSON `null` value
(`some none`) from a string (`some (some s)`); `exp` and `iat` are numeric
dates in seconds. -/
structure Payload where
  sub : Option (Option String) := none
  exp : Option Int := none
  iat : Option Int := none
deriving DecidableEq, Repr

/-- A bearer token: either an opaque string that does not parse as a JWT,
or a signed token recording its payload and the secret/algorithm it was
signed with. -/
inductive Token where
  | malformed (raw : String)
  | signed (payload : Payload) (secret : String) (alg : String)
deriving DecidableEq, Repr

/-- `jose.jwt.encode(claims, secret, algorithm)`. -/
def jwtEncode (payload : Payload) (secret alg : String) : Token :=
  .signed payload secret alg

/-- jose's `_validate_sub`: a present `sub` claim must be a string, else
`JWTClaimsError` (a `JWTError`); an absent `sub` is not required. -/
def validateSub (p : Payload) : Except JoseError Payload :=
  if p.sub = some none then .error .jwtError else .ok p

/-- jose's claim validation, in source order: `exp` is checked before
`sub`; an `exp` strictly in the past (jose compares `exp < now`, zero
leeway) raises `ExpiredSignatureError`; an absent `exp` is accepted. -/
def validateClaims (p : Payload) (now : Int) : Except JoseError Payload :=
  match p.exp with
  | some exp => if exp < now then .error .expiredSignature else validateSub p
  | none => validateSub p

/-- `jose.jwt.decode(token, secret, algorithms)` evaluated at time `now`:
fails with `JWTError` on an unparsable token, a signature made with a
different secret, or an algorithm outside the allowed list; then runs
claim validation (`validateClaims`); otherwise returns the claim set. -/
def jwtDecode (tok : Token) (secret : String) (algs : List String) (now : Int) :
    Except JoseError Payload :=
  match tok with
  | .malformed _ => .error .jwtError
  | .signed p s a =>
    if s ≠ secret then .error .jwtError
    else if a ∉ algs then .error .jwtError
    else validateClaims p now

/-- `payload["sub"]`: raises `KeyError` when the key is absent, and
otherwise yields its value (which may be JSON `null`, i.e. `none`). -/
def payloadGetSub (p : Payload) : Except PyExc (Option String) :=
  match p.sub with
  | none => .error (.keyError "sub")
  | some v => .ok v

/-- A cached user snapshot, the parsed form of the JSON stored in Redis.
`resolverShape` is the dict `{"id", "username", "email"}` written by
`get_current_user`; `loginShape` is the `{username, email, password_hash}`
shape that spec §3/§4.4 attributes to a cache-aware login path — the code
under `src/` never writes it, but cache values of this shape may exist
out of band. -/
inductive Snapshot where
  | resolverShape (id : Nat) (username email : String)
  | loginShape (username email : String) (password_hash : StoredHash)
deriving DecidableEq, Repr

/-- One Redis entry: the stored snapshot and the TTL it was set with. -/
structure CacheEntry where
  value : Snapshot
  ttl : Nat
deriving DecidableEq, Repr

/-- The Redis cache: an association list from keys (`"user:<username>"`)
to entries. -/
abbrev Cache := List (String × CacheEntry)

/-- `redis_client.get(key)`. -/
def cacheGet (c : Cache) (key : String) : Option CacheEntry :=
  (c.find? (fun kv => kv.1 == key)).map (fun kv => kv.2)

/-- `redis_client.setex(key, ttl, value)`: unconditional overwrite. -/
def cacheSetex (c : Cache) (key : String) (ttl : Nat) (v : Snapshot) : Cache :=
  (key, ⟨v, ttl⟩) :: c.filter (fun kv => kv.1 ≠ key)

/-- The credential record (`src/database/models.py`'s `User`, fields the
core reads and writes). -/
structure User where
  id : Nat
  username : String
  email : String
  hashed_password : StoredHash
  confirmed : Bool
deriving DecidableEq, Repr

/-- The user store: the list of persisted credential records. -/
abbrev Db := List User

/-- `UserRepository.get_user_by_username` (src/repository/users.py):
`select(User).filter_by(username=...)` with `scalar_one_or_none`. -/
def getUserByUsername (db : Db) (username : String) : Option User :=
  db.find? (fun u => u.username == username)

/-- `UserRepository.get_user_by_email` (src/repository/users.py). -/
def getUserByEmail (db : Db) (email : String) : Option User :=
  db.find? (fun u => u.email == email)

/-- `get_user_by_email` applied to a value decoded from a token, which in
Python may be `None`; `filter_by(email=None)` matches no record since the
email column holds no nulls. -/
def getUserByEmailOpt (db : Db) (email : Option String) : Option User :=
  match email with
  | none => none
  | some e => getUserByEmail db e

/-- Replace the first record satisfying `p` by its image under `f`: the
ORM pattern `user = get_user_by_...; user.field = v; commit()` mutates
exactly the single object returned by `scalar_one_or_none`. -/
def updateFirst (db : Db) (p : User → Bool) (f : User → User) : Db :=
  match db with
  | [] => []
  | u :: rest => if p u then f u :: rest else u :: updateFirst rest p f

/-- `UserRepository.update_password` (src/repository/users.py:95):
looks the user up by email, assigns `hashed_password` wholesale, commits;
`AttributeError` when no record matches (`None.hashed_password`). -/
def repoUpdatePassword (db : Db) (email : String) (newHash : StoredHash) :
    Except PyExc Db :=
  match getUserByEmail db email with
  | none => .error (.attributeError "'NoneType' object has no attribute 'hashed_password'")
  | some _ => .ok (updateFirst db (fun u => u.email == email)
      (fun u => { u with hashed_password := newHash }))

/-- `UserRepository.confirmed_email` (src/repository/users.py:81):
looks the user up by email, sets `confirmed = True`, commits. -/
def repoConfirmedEmail (db : Db) (email : String) : Except PyExc Db :=
  match getUserByEmail db email with
  | none => .error (.attributeError "'NoneType' object has no attribute 'confirmed'")
  | some _ => .ok (updateFirst db (fun u => u.email == email)
      (fun u => { u with confirmed := true }))

/-- The state an auth operation reads and writes: the user store and the
Redis cache. -/
structure AppState where
  db : Db
  cache : Cache
deriving DecidableEq, Repr

/-! ### Token codec (src/services/auth.py) -/

/-- The dict literal `{"sub": value}` passed to the token constructors. -/
def subPayload (value : String) : Payload :=
  { sub := some (some value) }

/-- `create_access_token(data, expires_delta)` (src/services/auth.py:53)
at time `now`: copies `data`, sets `exp = now + expires_delta` when
`expires_delta` is truthy (Python's `if expires_delta:` treats both `None`
and `0` as false) and `exp = now + settings.JWT_EXPIRATION_SECONDS`
otherwise, then signs with the shared secret and algorithm. -/
def create_access_token (s : Settings) (data : Payload) (now : Int)
    (expires_delta : Option Int := none) : Token :=
  let expire : Int :=
    match expires_delta with
    | some d => if d ≠ 0 then now + d else now + s.JWT_EXPIRATION_SECONDS
    | none => now + s.JWT_EXPIRATION_SECONDS
  jwtEncode { data with exp := some expire } s.JWT_SECRET s.JWT_ALGORITHM

/-- `create_email_token(data)` (src/services/auth.py:129) at time `now`:
copies `data`, sets `iat = now` and `exp = now + 7 days`
(`timedelta(days=7)` = 604800 seconds), signs with the shared secret and
algorithm. -/
def create_email_token (s : Settings) (data : Payload) (now : Int) : Token :=
  jwtEncode { data with iat := some now, exp := some (now + 604800) }
    s.JWT_SECRET s.JWT_ALGORITHM

/-- `get_email_from_token(token)` (src/services/auth.py:146) at time `now`:
decodes the token and returns `payload["sub"]`; every `JWTError`
(malformed, wrong signature, wrong algorithm, expired) is collapsed into
one `HTTPException(422)`; a `KeyError` from a payload without `sub` is
not caught and propagates. -/
def get_email_from_token (s : Settings) (tok : Token) (now : Int) :
    Except PyExc (Option String) :=
  match jwtDecode tok s.JWT_SECRET [s.JWT_ALGORITHM] now with
  | .ok payload => payloadGetSub payload
  | .error _ =>
    .error (.httpException 422 "Неправильний токен для перевірки електронної пошти")

/-- `create_reset_token(email)` (src/services/auth.py:172) at time `now`:
signs the claim set `{sub: email, exp: now + 180 seconds}` with the shared
secret and algorithm. -/
def create_reset_token (s : Settings) (email : String) (now : Int) : Token :=
  jwtEncode { sub := some (some email), exp := some (now + 180) }
    s.JWT_SECRET s.JWT_ALGORITHM

/-- `verify_reset_token(token)` (src/services/auth.py:187) at time `now`:
decodes the token and returns `payload["sub"]`; any `JWTError` yields
`None` rather than an error; a `KeyError` from a payload without `sub`
is not caught and propagates. -/
def verify_reset_token (s : Settings) (tok : Token) (now : Int) :
    Except PyExc (Option String) :=
  match jwtDecode tok s.JWT_SECRET [s.JWT_ALGORITHM] now with
  | .ok payload => payloadGetSub payload
  | .error _ => .ok none

/-! ### Session resolver (src/services/auth.py `get_current_user`) -/

/-- What the session resolver hands back: either the freshly loaded store
record, or the cached snapshot (`json.loads` of the Redis value). -/
inductive ResolvedUser where
  | fromDb (u : User)
  | fromCache (snapshot : Snapshot)
deriving DecidableEq, Repr

/-- `get_current_user(token, db)` (src/services/auth.py:75) at time `now`.
The `try` block decodes the token and reads `payload["sub"]`; only
`JWTError` is caught and mapped to the 401 `credentials_exception` (the
`HTTPException` raised inside the block for a `null` subject propagates,
as does a `KeyError` for a missing `sub` key).  Then: load the user by
username (absent → 401); on a cache hit for `user:<username>` return the
parsed cached snapshot; on a miss, reload the user, cache the
`{id, username, email}` snapshot for 3600 seconds and return the store
record. -/
def get_current_user (s : Settings) (st : AppState) (tok : Token) (now : Int) :
    Except PyExc ResolvedUser × AppState :=
  let credentials_exception : PyExc :=
    .httpException 401 "Could not validate credentials"
  match jwtDecode tok s.JWT_SECRET [s.JWT_ALGORITHM] now with
  | .error _ => (.error credentials_exception, st)
  | .ok payload =>
    match payload.sub with
    | none => (.error (.keyError "sub"), st)
    | some none => (.error credentials_exception, st)
    | some (some username) =>
      match getUserByUsername st.db username with
      | none => (.error credentials_exception, st)
      | some _ =>
        match cacheGet st.cache ("user:" ++ username) with
        | some entry => (.ok (.fromCache entry.value), st)
        | none =>
          match getUserByUsername st.db username with
          | none => (.error credentials_exception, st)
          | some user =>
            let user_data : Snapshot := .resolverShape user.id user.username user.email
            let cache' := cacheSetex st.cache ("user:" ++ username) 3600 user_data
            (.ok (.fromDb user), { st with cache := cache' })

/-! ### Endpoints (src/api/auth.py) -/

/-- `login_user(form_data, db)` (src/api/auth.py:64) at time `now`.
Looks the user up by username; `not user or not verify_password(...)`
(short-circuit: verification is skipped for an unknown user) → 401
invalid credentials; `not user.confirmed` → 401 unconfirmed; otherwise
issues `create_access_token({"sub": user.username})`.  No cache access
appears anywhere in this endpoint, and nothing is written to the store. -/
def login_user (s : Settings) (st : AppState) (username password : String)
    (now : Int) : Except PyExc Token × AppState :=
  match getUserByUsername st.db username with
  | none =>
    (.error (.httpException 401 "Неправильний логін або пароль"), st)
  | some user =>
    match Hash.verify_password password user.hashed_password with
    | .error e => (.error e, st)
    | .ok ok =>
      if !ok then
        (.error (.httpException 401 "Неправильний логін або пароль"), st)
      else if !user.confirmed then
        (.error (.httpException 401 "Електронна адреса не підтверджена"), st)
      else
        (.ok (create_access_token s (subPayload user.username) now), st)

/-- `confirmed_email(token, db)` (src/api/auth.py:104) at time `now`.
Decodes the email from the token (propagating its 422 on token failure),
looks the user up by the decoded email; absent → 400 "Verification
error"; already confirmed → success message, no store call; otherwise
sets `confirmed = True` through the repository. -/
def confirmed_email (s : Settings) (st : AppState) (tok : Token) (now : Int) :
    Except PyExc String × AppState :=
  match get_email_from_token s tok now with
  | .error e => (.error e, st)
  | .ok email =>
    match getUserByEmailOpt st.db email with
    | none => (.error (.httpException 400 "Verification error"), st)
    | some user =>
      if user.confirmed then
        (.ok "Ваша електронна пошта вже підтверджена", st)
      else
        match repoConfirmedEmail st.db (email.getD "") with
        | .error e => (.error e, st)
        | .ok db' => (.ok "Електронну пошту підтверджено", { st with db := db' })

/-- `request_email(body, ...)` (src/api/auth.py:135).  Looks the user up
by email and immediately evaluates `user.confirmed` — when the lookup
returned `None`, this raises `AttributeError` before the `if user:` guard
below it is ever reached.  A found confirmed user gets the
"already confirmed" message; a found unconfirmed user gets the "check
your email" message (the confirmation mail is scheduled as a background
task, which changes neither store nor cache). -/
def request_email (st : AppState) (email : String) :
    Except PyExc String × AppState :=
  match getUserByEmail st.db email with
  | none =>
    (.error (.attributeError "'NoneType' object has no attribute 'confirmed'"), st)
  | some user =>
    if user.confirmed then
      (.ok "Ваша електронна пошта вже підтверджена", st)
    else
      (.ok "Перевірте свою електронну пошту для підтвердження", st)

/-- Python truthiness of the value `verify_reset_token` returns:
`if not email:` is taken for `None` and for the empty string. -/
def pyFalsy (v : Option String) : Bool :=
  match v with
  | none => true
  | some s => s == ""

/-- `reset_password(body, db)` (src/api/auth.py:176) at time `now`.
Verifies the reset token (a `KeyError` from a sub-less payload
propagates); a falsy result → 400 invalid token; unknown email → 404;
otherwise hashes the new password and overwrites the stored record's
hash through `UserService.update_password`.  No cache access appears
anywhere in this endpoint. -/
def reset_password (s : Settings) (st : AppState) (tok : Token)
    (new_password : String) (now : Int) : Except PyExc String × AppState :=
  match verify_reset_token s tok now with
  | .error e => (.error e, st)
  | .ok emailOpt =>
    if pyFalsy emailOpt then
      (.error (.httpException 400 "Invalid or expired token"), st)
    else
      let email := emailOpt.getD ""
      match getUserByEmail st.db email with
      | none => (.error (.httpException 404 "User not found"), st)
      | some _ =>
        match repoUpdatePassword st.db email (Hash.get_password_hash new_password) with
        | .error e => (.error e, st)
        | .ok db' => (.ok "Password successfully reset", { st with db := db' })

/-! ### Concrete fixtures used by witnesses and counterexamples -/

/-- A concrete instantiation of the configuration. -/
def settings0 : Settings := ⟨"secret-key", "HS256", 3600⟩

/-- An unconfirmed registered user. -/
def userUnconfirmed : User := ⟨1, "bob", "b@x.com", .bcrypt "pw", false⟩

/-- A confirmed registered user. -/
def userConfirmed : User := ⟨2, "carol", "c@x.com", .bcrypt "pw", true⟩

/-- A store holding one unconfirmed and one confirmed user. -/
def db0 : Db := [userUnconfirmed, userConfirmed]

/-- App state over `db0` with an empty cache. -/
def st0 : AppState := ⟨db0, []⟩

/-- State for the C1 counterexample: the store holds alice with the hash
of her *new* password, while the cache still holds a login-shape snapshot
with the hash of her *old* password. -/
def staleCacheState : AppState :=
  { db := [⟨1, "alice", "a@x.com", .bcrypt "newpw", true⟩],
    cache := [("user:alice", ⟨.loginShape "alice" "a@x.com" (.bcrypt "oldpw"), 3600⟩)] }

/-- A token signed with the correct secret and algorithm, unexpired at
time 0, whose payload carries no `sub` claim at all. -/
def noSubToken : Token := .signed { exp := some 1000 } "secret-key" "HS256"

/-! ### Helper lemmas -/

/-- `find?` over `updateFirst` with the same predicate: when the update
preserves the predicate, the found element is the image of the originally
found one. -/
theorem find?_updateFirst (db : Db) (p : User → Bool) (f : User → User)
    (hf : ∀ u, p (f u) = p u) :
    (updateFirst db p f).find? p = (db.find? p).map f := by
  induction db with
  | nil => rfl
  | cons u rest ih =>
    by_cases h : p u
    · rw [updateFirst, if_pos h, List.find?_cons_of_pos _ ((hf u).trans h),
        List.find?_cons_of_pos _ h]
      rfl
    · rw [updateFirst, if_neg h, List.find?_cons_of_neg _ h,
        List.find?_cons_of_neg _ h, ih]

/-! ### C10 — `Hash.verify_password` on malformed hashes -/

/-- C10 counterexample: `verify_password("pw", "not-a-hash")` does not
return a boolean — passlib's `CryptContext.verify` raises
`UnknownHashError` on a stored hash that no configured scheme
identifies, so the claim "returns a boolean and never throws" fails. -/
theorem C10_counterexample :
    Hash.verify_password "pw" (.malformed "not-a-hash") = .error .unknownHashError :=
  rfl

/-- C10 (amended): for every pair of input strings, `Hash.verify_password`
returns a boolean when the stored hash is a well-formed bcrypt hash —
`true` exactly on a match, `false` on any mismatch — but raises
passlib's `UnknownHashError` when the stored hash is malformed. -/
theorem C10_verify_password_total_on_wellformed (p pw m : String) :
    Hash.verify_password p (.bcrypt pw) = .ok (p == pw) ∧
    Hash.verify_password p (.malformed m) = .error .unknownHashError :=
  ⟨rfl, rfl⟩

/-! ### C2 — email-confirmation tokens pass the reset verifier -/

/-- C2: the three token kinds share one secret and algorithm and the
reset verifier checks only signature, expiry and the `sub` claim, so the
7-day email-confirmation token `create_email_token({"sub": e})` issued at
time `t` is accepted by `verify_reset_token` at every time `tv` within
its full 7-day lifetime (604800 seconds), returning `e`. -/
theorem C2_email_token_accepted_by_reset_verifier (s : Settings) (e : String)
    (t tv : Int) (h : tv ≤ t + 604800) :
    verify_reset_token s (create_email_token s (subPayload e) t) tv =
      .ok (some e) := by
  have hexp : ¬ (t + 604800 < tv) := not_lt.mpr h
  simp [verify_reset_token, create_email_token, jwtEncode, jwtDecode,
    validateClaims, validateSub, subPayload, payloadGetSub, hexp]

/-- C2 witness: a concrete email token issued at time 0 is accepted by
the reset verifier at time 604800 (7 days later). -/
theorem C2_witness :
    verify_reset_token settings0
      (create_email_token settings0 (subPayload "a@x.com") 0) 604800 =
      .ok (some "a@x.com") :=
  C2_email_token_accepted_by_reset_verifier settings0 "a@x.com" 0 604800
    (by decide)

/-! ### C7 — token lifetimes -/

/-- C7: token lifetimes match the spec exactly: for every email `e` and
issuance time `t`, `create_email_token` sets `exp = t + 7 days`
(604800 s) and includes an `iat` claim, and `create_reset_token` sets
`exp = t + 180 s` with claims `{sub: e, exp}` (and no `iat`); each token
verifies back to `e` strictly before its expiry and fails to verify
after it (the email token with the collapsed 422 error, the reset token
by returning absence). -/
theorem C7_token_lifetimes (s : Settings) (e : String) (t tv : Int) :
    create_email_token s (subPayload e) t =
      .signed { sub := some (some e), exp := some (t + 604800), iat := some t }
        s.JWT_SECRET s.JWT_ALGORITHM ∧
    create_reset_token s e t =
      .signed { sub := some (some e), exp := some (t + 180), iat := none }
        s.JWT_SECRET s.JWT_ALGORITHM ∧
    (tv < t + 604800 →
      get_email_from_token s (create_email_token s (subPayload e) t) tv =
        .ok (some e)) ∧
    (t + 604800 < tv →
      get_email_from_token s (create_email_token s (subPayload e) t) tv =
        .error (.httpException 422 "Неправильний токен для перевірки електронної пошти")) ∧
    (tv < t + 180 →
      verify_reset_token s (create_reset_token s e t) tv = .ok (some e)) ∧
    (t + 180 < tv →
      verify_reset_token s (create_reset_token s e t) tv = .ok none) := by
  refine ⟨rfl, rfl, ?_, ?_, ?_, ?_⟩
  · intro h
    have hexp : ¬ (t + 604800 < tv) := by omega
    simp [get_email_from_token, create_email_token, jwtEncode, jwtDecode,
      validateClaims, validateSub, subPayload, payloadGetSub, hexp]
  · intro h
    simp [get_email_from_token, create_email_token, jwtEncode, jwtDecode,
      validateClaims, validateSub, subPayload, payloadGetSub, h]
  · intro h
    have hexp : ¬ (t + 180 < tv) := by omega
    simp [verify_reset_token, create_reset_token, jwtEncode, jwtDecode,
      validateClaims, validateSub, payloadGetSub, hexp]
  · intro h
    simp [verify_reset_token, create_reset_token, jwtEncode, jwtDecode,
      validateClaims, validateSub, payloadGetSub, h]

/-- C7 witness: concrete tokens issued at time 0 verify at time 100 and
fail at times 604801 and 181 respectively. -/
theorem C7_witness :
    get_email_from_token settings0
      (create_email_token settings0 (subPayload "a@x.com") 0) 100 =
        .ok (some "a@x.com") ∧
    get_email_from_token settings0
      (create_email_token settings0 (subPayload "a@x.com") 0) 604801 =
        .error (.httpException 422 "Неправильний токен для перевірки електронної пошти") ∧
    verify_reset_token settings0
      (create_reset_token settings0 "a@x.com" 0) 100 = .ok (some "a@x.com") ∧
    verify_reset_token settings0
      (create_reset_token settings0 "a@x.com" 0) 181 = .ok none :=
  ⟨(C7_token_lifetimes settings0 "a@x.com" 0 100).2.2.1 (by decide),
   (C7_token_lifetimes settings0 "a@x.com" 0 604801).2.2.2.1 (by decide),
   (C7_token_lifetimes settings0 "a@x.com" 0 100).2.2.2.2.1 (by decide),
   (C7_token_lifetimes settings0 "a@x.com" 0 181).2.2.2.2.2 (by decide)⟩

/-! ### C1 — login and the cache -/

/-- C1 counterexample: the store holds alice's new password hash while
the cache still holds a `{username, email, password_hash}` snapshot with
her old one — a cache hit by the claim's account, so login with the old
password should succeed against the cached hash; instead `login_user`
rejects it with 401 invalid credentials, because it never reads the
cache and verifies only against the store's hash. -/
theorem C1_counterexample :
    cacheGet staleCacheState.cache "user:alice" =
      some ⟨.loginShape "alice" "a@x.com" (.bcrypt "oldpw"), 3600⟩ ∧
    getUserByUsername staleCacheState.db "alice" =
      some ⟨1, "alice", "a@x.com", .bcrypt "newpw", true⟩ ∧
    (login_user settings0 staleCacheState "alice" "oldpw" 0).1 =
      .error (.httpException 401 "Неправильний логін або пароль") :=
  ⟨rfl, rfl, rfl⟩

/-- C1 (amended): `login_user` performs no cache operation at all — the
whole state (cache entries included) is returned unchanged, and the
outcome is independent of the cache contents: the password is verified
only against the store's hash, so a stale cached snapshot never
authenticates an old password. -/
theorem C1_login_ignores_cache (s : Settings) (st st2 : AppState)
    (username password : String) (now : Int) (hdb : st2.db = st.db) :
    (login_user s st username password now).2 = st ∧
    (login_user s st2 username password now).1 =
      (login_user s st username password now).1 := by
  obtain ⟨db, c⟩ := st
  obtain ⟨db2, c2⟩ := st2
  simp only at hdb
  rw [hdb]
  cases h : getUserByUsername db username with
  | none => simp [login_user, h]
  | some user =>
    cases hv : Hash.verify_password password user.hashed_password with
    | error e => simp [login_user, h, hv]
    | ok ok =>
      cases ok <;> cases hcon : user.confirmed <;>
        simp [login_user, h, hv, hcon]

/-- App state over `db0` with a cached resolver-shape snapshot for bob. -/
def st0cached : AppState :=
  ⟨db0, [("user:bob", ⟨.resolverShape 1 "bob" "b@x.com", 3600⟩)]⟩

/-- C1 witness: at a concrete state, login leaves the state untouched and
returns the same result with or without a cache entry for the user. -/
theorem C1_witness :
    st0cached.db = st0.db ∧
    ((login_user settings0 st0 "bob" "pw" 0).2 = st0 ∧
     (login_user settings0 st0cached "bob" "pw" 0).1 =
       (login_user settings0 st0 "bob" "pw" 0).1) :=
  ⟨rfl, C1_login_ignores_cache settings0 st0 st0cached "bob" "pw" 0 rfl⟩

/-! ### C3 — session resolver failure handling -/

/-- C3 (code bug): a validly signed, unexpired session token whose
payload lacks the `sub` claim makes `get_current_user` raise `KeyError`
from `payload["sub"]`, which `except JWTError` does not catch — not the
401 `credentials_exception` that the spec and the function's own (dead)
`if username is None` check call for. -/
theorem C3_missing_sub_raises_keyerror :
    jwtDecode noSubToken settings0.JWT_SECRET [settings0.JWT_ALGORITHM] 0 =
      .ok { sub := none, exp := some 1000, iat := none } ∧
    (get_current_user settings0 st0 noSubToken 0).1 = .error (.keyError "sub") :=
  ⟨rfl, rfl⟩

/-! ### C4 — enumeration safety of request_email -/

/-- C4 (code bug): `request_email` evaluates `user.confirmed` before its
`if user:` guard, so for an email that belongs to no account the call
raises `AttributeError` on `None` instead of succeeding with the
enumeration-safe message; an existing unconfirmed account gets the
"check your email" message and an already-confirmed account the
"already confirmed" message, so the two runs of the claim do not return
identical successes. -/
theorem C4_unknown_email_crashes :
    getUserByEmail st0.db "ghost@x.com" = none ∧
    (request_email st0 "ghost@x.com").1 =
      .error (.attributeError "'NoneType' object has no attribute 'confirmed'") ∧
    (request_email st0 "b@x.com").1 =
      .ok "Перевірте свою електронну пошту для підтвердження" ∧
    (request_email st0 "c@x.com").1 =
      .ok "Ваша електронна пошта вже підтверджена" :=
  ⟨rfl, rfl, rfl, rfl⟩

/-! ### C6 — idempotent email confirmation -/

/-- C6: confirming an already-confirmed account with a valid token for
its email returns the idempotent success message and leaves the whole
state unchanged — the `user.confirmed` guard returns before any store
mutation is issued. -/
theorem C6_confirm_email_idempotent (s : Settings) (st : AppState)
    (tok : Token) (now : Int) (e : String) (u : User)
    (hd : get_email_from_token s tok now = .ok (some e))
    (hu : getUserByEmail st.db e = some u)
    (hc : u.confirmed = true) :
    confirmed_email s st tok now =
      (.ok "Ваша електронна пошта вже підтверджена", st) := by
  simp [confirmed_email, hd, getUserByEmailOpt, hu, hc]

/-- C6 witness: confirming carol (already confirmed) with a fresh valid
token succeeds and changes nothing. -/
theorem C6_witness :
    get_email_from_token settings0
      (create_email_token settings0 (subPayload "c@x.com") 0) 0 =
      .ok (some "c@x.com") ∧
    confirmed_email settings0 st0
      (create_email_token settings0 (subPayload "c@x.com") 0) 0 =
      (.ok "Ваша електронна пошта вже підтверджена", st0) :=
  ⟨rfl,
   C6_confirm_email_idempotent settings0 st0
     (create_email_token settings0 (subPayload "c@x.com") 0) 0 "c@x.com"
     userConfirmed rfl rfl rfl⟩

/-! ### C8 — login failure discrimination -/

/-- C8: `login_user` answers `EmailNotConfirmed` exactly when the record
exists, the password verifies, and `confirmed` is false; an unknown
username or a password that verifies to false always yields
`InvalidCredentials` — so `EmailNotConfirmed` is never returned for a
wrong password or an unknown user. -/
theorem C8_login_error_discrimination (s : Settings) (st : AppState)
    (username password : String) (now : Int) :
    ((login_user s st username password now).1 =
        .error (.httpException 401 "Електронна адреса не підтверджена") ↔
      ∃ u, getUserByUsername st.db username = some u ∧
        Hash.verify_password password u.hashed_password = .ok true ∧
        u.confirmed = false) ∧
    ((getUserByUsername st.db username = none ∨
      ∃ u, getUserByUsername st.db username = some u ∧
        Hash.verify_password password u.hashed_password = .ok false) →
      (login_user s st username password now).1 =
        .error (.httpException 401 "Неправильний логін або пароль")) := by
  have hne : ("Неправильний логін або пароль" : String) ≠
      "Електронна адреса не підтверджена" := by decide
  constructor
  · cases h : getUserByUsername st.db username with
    | none => simp [login_user, h, hne]
    | some user =>
      cases hv : Hash.verify_password password user.hashed_password with
      | error err =>
        have herr : err = .unknownHashError := by
          cases hh : user.hashed_password <;>
            simp [Hash.verify_password, cryptContextVerify, hh] at hv
          exact hv.symm
        subst herr
        simp [login_user, h, hv]
      | ok ok =>
        cases ok with
        | false => simp [login_user, h, hv, hne]
        | true =>
          cases hcon : user.confirmed with
          | false =>
            simp [login_user, h, hv, hcon]
          | true =>
            simp [login_user, h, hv, hcon]
  · rintro (h | ⟨u, hu, hv⟩)
    · simp [login_user, h]
    · simp [login_user, hu, hv]

/-- C8 witness: over `db0`, an unknown user and a wrong password both get
invalid-credentials, while bob (correct password, unconfirmed) gets the
not-confirmed error. -/
theorem C8_witness :
    (login_user settings0 st0 "nobody" "pw" 0).1 =
      .error (.httpException 401 "Неправильний логін або пароль") ∧
    (login_user settings0 st0 "carol" "wrong" 0).1 =
      .error (.httpException 401 "Неправильний логін або пароль") ∧
    (login_user settings0 st0 "bob" "pw" 0).1 =
      .error (.httpException 401 "Електронна адреса не підтверджена") :=
  ⟨(C8_login_error_discrimination settings0 st0 "nobody" "pw" 0).2
     (Or.inl rfl),
   (C8_login_error_discrimination settings0 st0 "carol" "wrong" 0).2
     (Or.inr ⟨userConfirmed, rfl, rfl⟩),
   (C8_login_error_discrimination settings0 st0 "bob" "pw" 0).1.mpr
     ⟨userUnconfirmed, rfl, rfl, rfl⟩⟩

/-! ### C9 — confirm-email error reporting -/

/-- C9 counterexample: a malformed token makes `confirmed_email` fail
with HTTP status 422 (the status `get_email_from_token` raises), not the
single 400 verification error the claim asserts for every failure. -/
theorem C9_counterexample :
    (confirmed_email settings0 st0 (.malformed "garbage") 0).1 =
      .error (.httpException 422 "Неправильний токен для перевірки електронної пошти") :=
  rfl

/-- C9 (amended): ConfirmEmail reports token failures (malformed, wrong
signature, expired) as HTTP 422 with one message that does not reveal
which token check failed, and reports a decoded email that matches no
account as HTTP 400 "Verification error"; both leave the state
unchanged. -/
theorem C9_confirm_email_errors (s : Settings) (st : AppState) (tok : Token)
    (now : Int) :
    (∀ err, jwtDecode tok s.JWT_SECRET [s.JWT_ALGORITHM] now = .error err →
      confirmed_email s st tok now =
        (.error (.httpException 422 "Неправильний токен для перевірки електронної пошти"), st)) ∧
    (∀ p : Payload, jwtDecode tok s.JWT_SECRET [s.JWT_ALGORITHM] now = .ok p →
      ∀ v, p.sub = some v → getUserByEmailOpt st.db v = none →
        confirmed_email s st tok now =
          (.error (.httpException 400 "Verification error"), st)) := by
  constructor
  · intro err herr
    simp [confirmed_email, get_email_from_token, herr]
  · intro p hp v hv hnone
    simp [confirmed_email, get_email_from_token, hp, payloadGetSub, hv, hnone]

/-- C9 witness: a malformed token yields the 422 error, and a valid token
for an email with no account yields the 400 error. -/
theorem C9_witness :
    confirmed_email settings0 st0 (.malformed "zzz") 0 =
      (.error (.httpException 422 "Неправильний токен для перевірки електронної пошти"), st0) ∧
    confirmed_email settings0 st0
      (create_email_token settings0 (subPayload "ghost@x.com") 0) 0 =
      (.error (.httpException 400 "Verification error"), st0) :=
  ⟨(C9_confirm_email_errors settings0 st0 (.malformed "zzz") 0).1
     .jwtError rfl,
   (C9_confirm_email_errors settings0 st0
       (create_email_token settings0 (subPayload "ghost@x.com") 0) 0).2
     { sub := some (some "ghost@x.com"), exp := some 604800, iat := some 0 }
     rfl (some "ghost@x.com") rfl rfl⟩

/-! ### C5 — reset_password frame -/

/-- C5: with a valid reset token for an existing user, `reset_password`
overwrites that user's stored password hash wholesale with the hash of
the new password and performs no cache operation — the cache component
of the state after the call is exactly the cache before it. -/
theorem C5_reset_password_updates_hash_only (s : Settings) (st : AppState)
    (tok : Token) (pw : String) (now : Int) (e : String) (u : User)
    (hv : verify_reset_token s tok now = .ok (some e)) (he : e ≠ "")
    (hu : getUserByEmail st.db e = some u) :
    (reset_password s st tok pw now).2.cache = st.cache ∧
    (reset_password s st tok pw now).1 = .ok "Password successfully reset" ∧
    getUserByEmail (reset_password s st tok pw now).2.db e =
      some { u with hashed_password := Hash.get_password_hash pw } := by
  have hfalsy : pyFalsy (some e) = false := by
    simp [pyFalsy]
    exact he
  have hrepo : repoUpdatePassword st.db e (Hash.get_password_hash pw) =
      .ok (updateFirst st.db (fun x => x.email == e)
        (fun x => { x with hashed_password := Hash.get_password_hash pw })) := by
    simp [repoUpdatePassword, hu]
  have hfind : getUserByEmail (updateFirst st.db (fun x => x.email == e)
      (fun x => { x with hashed_password := Hash.get_password_hash pw })) e =
      some { u with hashed_password := Hash.get_password_hash pw } := by
    unfold getUserByEmail at hu ⊢
    rw [find?_updateFirst st.db (fun x => x.email == e)
        (fun x => { x with hashed_password := Hash.get_password_hash pw })
        (fun x => rfl), hu]
    rfl
  refine ⟨?_, ?_, ?_⟩ <;>
    simp [reset_password, hv, hfalsy, hu, hrepo, hfind]

/-- C5 witness: resetting carol's password with a fresh valid token
succeeds, rewrites her stored hash, and leaves the (empty) cache of
`st0` untouched. -/
theorem C5_witness :
    verify_reset_token settings0 (create_reset_token settings0 "c@x.com" 0) 0 =
      .ok (some "c@x.com") ∧
    ((reset_password settings0 st0 (create_reset_token settings0 "c@x.com" 0)
        "npw" 0).2.cache = st0.cache ∧
     (reset_password settings0 st0 (create_reset_token settings0 "c@x.com" 0)
        "npw" 0).1 = .ok "Password successfully reset" ∧
     getUserByEmail (reset_password settings0 st0
        (create_reset_token settings0 "c@x.com" 0) "npw" 0).2.db "c@x.com" =
       some { userConfirmed with hashed_password := Hash.get_password_hash "npw" }) :=
  ⟨rfl,
   C5_reset_password_updates_hash_only settings0 st0
     (create_reset_token settings0 "c@x.com" 0) "npw" 0 "c@x.com"
     userConfirmed rfl (by decide) rfl⟩

end Hw12
